import Mathlib

/-
Verification of the gatherings shared-expense ledger (models.py / services.py).

Shallow embedding conventions:
* Monetary amounts (Python floats) are modelled as rationals (ℚ).
* The SQLite store is a list of gatherings in insertion order; each gathering
  holds its members in insertion order (autoincrement primary key order, which
  is the order SQLite returns rows in for the unordered queries the code runs).
* Python exceptions become an `Except` error enum with one constructor per
  error kind of the spec taxonomy; an `.error` result models an exception plus
  the session rollback (the store is unchanged because no new store value is
  produced).
-/

/-- Status of a gathering (models.py GatheringStatus). -/
inductive GatheringStatus where
  | opened
  | closed
deriving DecidableEq, Repr

/-- Error kinds raised by the database manager, named after the spec taxonomy;
each constructor corresponds to one `raise ValueError` site in models.py. -/
inductive GErr where
  | invalidId
  | alreadyExists
  | notFound
  | gatheringClosed
  | alreadyClosed
  | memberNotFound
  | duplicateName
  | memberHasActivity
  | invalidAmount
deriving DecidableEq, Repr

/-- A member row together with its owned expense and payment amounts
(models.py Member / Expense / Payment). -/
structure Member where
  name : String
  expenses : List ℚ
  payments : List ℚ
deriving DecidableEq, Repr

/-- A gathering row together with its member aggregate (models.py Gathering). -/
structure Gathering where
  id : String
  total_members : Int
  status : GatheringStatus
  members : List Member
deriving DecidableEq, Repr

/-- Member.total_expenses: sum of the member's expense amounts. -/
def Member.total_expenses (m : Member) : ℚ := m.expenses.sum

/-- Member.total_payments: sum of the member's payment amounts. -/
def Member.total_payments (m : Member) : ℚ := m.payments.sum

/-- Gathering.total_expenses: sum of all expense amounts across all members. -/
def Gathering.total_expenses (g : Gathering) : ℚ :=
  (g.members.map Member.total_expenses).sum

/-- Gathering.total_payments: sum of all payment amounts across all members. -/
def Gathering.total_payments (g : Gathering) : ℚ :=
  (g.members.map Member.total_payments).sum

/-- Gathering.expense_per_member: 0 when total_members == 0, else the sum of
all expense amounts divided by total_members (models.py lines 37-44). -/
def Gathering.expense_per_member (g : Gathering) : ℚ :=
  if g.total_members = 0 then 0
  else (g.members.map Member.total_expenses).sum / (g.total_members : ℚ)

/-- Member.balance: total_expenses + total_payments - expense_per_member of the
owning gathering (models.py lines 80-91). -/
def Member.balance (g : Gathering) (m : Member) : ℚ :=
  m.total_expenses + m.total_payments - g.expense_per_member

/-- The per-member amount computed by GatheringService.calculate_reimbursements:
to_pay = expense_per_member - member.total_expenses + member.total_payments
(services.py line 79). -/
def to_pay (g : Gathering) (m : Member) : ℚ :=
  g.expense_per_member - m.total_expenses + m.total_payments

/-- GatheringService.calculate_reimbursements: the name-to-amount map, in member
order (services.py lines 53-82; the service first looks the gathering up by id
and fails with NotFound when absent, which callers handle separately). -/
def calculate_reimbursements (g : Gathering) : List (String × ℚ) :=
  g.members.map (fun m => (m.name, to_pay g m))

/-- Python str.split("-") on the id's character list: splits on every hyphen,
keeping empty components (Python's sep-split semantics). -/
def splitDash : List Char → List (List Char)
  | [] => [[]]
  | c :: t =>
    if c = '-' then [] :: splitDash t
    else
      match splitDash t with
      | [] => [[c]]
      | h :: r => (c :: h) :: r

/-- Numeric value of a digit string, most significant digit first. -/
def digitsValL (l : List Char) : Nat :=
  l.foldl (fun a c => 10 * a + (c.toNat - 48)) 0

/-- All characters are ASCII decimal digits. -/
def allDigitsL (l : List Char) : Bool := l.all Char.isDigit

/-- Gregorian leap-year rule used by Python's datetime. -/
def isLeapYear (y : Nat) : Bool :=
  y % 4 == 0 && (y % 100 != 0 || y % 400 == 0)

/-- Days in a month, as validated by Python's datetime constructor. -/
def daysInMonth (y m : Nat) : Nat :=
  if m = 2 then (if isLeapYear y then 29 else 28)
  else if m = 4 ∨ m = 6 ∨ m = 9 ∨ m = 11 then 30
  else 31

/-- CPython strptime %Y field: exactly four digits; the datetime constructor
additionally requires year ≥ 1 (MINYEAR). -/
def yearFieldOK (y : List Char) : Bool :=
  y.length == 4 && allDigitsL y && decide (1 ≤ digitsValL y)

/-- CPython strptime %m field: regex 1[0-2]|0[1-9]|[1-9], i.e. one or two
digits with value in 1..12. -/
def monthFieldOK (mo : List Char) : Bool :=
  (mo.length == 1 || mo.length == 2) && allDigitsL mo
    && decide (1 ≤ digitsValL mo) && decide (digitsValL mo ≤ 12)

/-- CPython strptime %d field: regex 3[01]|[12]\d|0[1-9]|[1-9], i.e. one or
two digits with value in 1..31. -/
def dayFieldOK (d : List Char) : Bool :=
  (d.length == 1 || d.length == 2) && allDigitsL d
    && decide (1 ≤ digitsValL d) && decide (digitsValL d ≤ 31)

/-- datetime.strptime(s, "%Y-%m-%d") succeeds: the string is exactly
year-month-day with the strptime field formats and a calendar-valid date. -/
def strptimeYMD (l : List Char) : Bool :=
  match splitDash l with
  | [y, mo, d] =>
    yearFieldOK y && monthFieldOK mo && dayFieldOK d
      && decide (digitsValL d ≤ daysInMonth (digitsValL y) (digitsValL mo))
  | _ => false

/-- The id validation of DatabaseManager.create_gathering (models.py 159-164):
join the first three hyphen-separated components back with hyphens and parse
the result with strptime "%Y-%m-%d". -/
def validGatheringId (gid : String) : Bool :=
  strptimeYMD (List.intercalate ['-'] ((splitDash gid.toList).take 3))

/-- Python f-string {i:04d}: decimal digits of i zero-padded to width 4. -/
def pad4 (n : Nat) : String :=
  let s := toString n
  if s.length < 4 then String.mk (List.replicate (4 - s.length) '0') ++ s else s

/-- Generated placeholder member name member0001, member0002, ... -/
def placeholderName (i : Nat) : String := "member" ++ pad4 i

/-- The database is the list of gatherings in insertion order. -/
abbrev DB := List Gathering

/-- Row lookup by primary key (first gathering with the given id). -/
def findGathering (db : DB) (gid : String) : Option Gathering :=
  db.find? (fun g => g.id = gid)

/-- Commit an updated gathering row back into the store. -/
def updateGathering (db : DB) (gid : String) (g' : Gathering) : DB :=
  db.map (fun g => if g.id = gid then g' else g)

/-- DatabaseManager.create_gathering (models.py 145-196): validate the id,
reject duplicates, then insert the gathering with total_members and
placeholder members member0001..memberNNNN (none when total_members ≤ 0,
mirroring Python's empty range; total_members itself is stored unvalidated). -/
def create_gathering (db : DB) (gid : String) (total_members : Int) :
    Except GErr DB :=
  if ¬ validGatheringId gid then .error .invalidId
  else if (findGathering db gid).isSome then .error .alreadyExists
  else
    let members := (List.range total_members.toNat).map
      (fun i => { name := placeholderName (i + 1), expenses := [], payments := [] : Member })
    .ok (db ++ [{ id := gid, total_members := total_members,
                  status := .opened, members := members }])

/-- ASCII lower-casing as applied by SQLite's default LIKE comparison. -/
def lowerA (c : Char) : Char :=
  if 'A' ≤ c ∧ c ≤ 'Z' then Char.ofNat (c.toNat + 32) else c

/-- The SQL filter Member.name LIKE "member%" (models.py 378-381): SQLite's
default LIKE is an ASCII-case-insensitive match, here of the six-character
pattern stem against the start of the member's name. -/
def likeMember (m : Member) : Bool :=
  match m.name.toList with
  | c1 :: c2 :: c3 :: c4 :: c5 :: c6 :: _ =>
    lowerA c1 == 'm' && lowerA c2 == 'e' && lowerA c3 == 'm'
      && lowerA c4 == 'b' && lowerA c5 == 'e' && lowerA c6 == 'r'
  | _ => false

/-- Apply f to the first member satisfying p, keep the rest unchanged
(the ORM mutates the single row returned by .first() / [0]). -/
def modifyFirst (p : Member → Bool) (f : Member → Member) : List Member → List Member
  | [] => []
  | m :: ms => if p m then f m :: ms else m :: modifyFirst p f ms

/-- Delete the first member satisfying p (session.delete of the .first() row). -/
def removeFirst (p : Member → Bool) : List Member → List Member
  | [] => []
  | m :: ms => if p m then ms else m :: removeFirst p ms

/-- DatabaseManager.add_member (models.py 198-242). -/
def add_member (db : DB) (gid member_name : String) : Except GErr DB :=
  match findGathering db gid with
  | none => .error .notFound
  | some g =>
    if g.status = .closed then .error .gatheringClosed
    else if g.members.any (fun m => m.name = member_name) then .error .duplicateName
    else .ok (updateGathering db gid
      { g with
        members := g.members ++ [{ name := member_name, expenses := [], payments := [] }],
        total_members := g.total_members + 1 })

/-- DatabaseManager.remove_member (models.py 244-294). -/
def remove_member (db : DB) (gid member_name : String) : Except GErr DB :=
  match findGathering db gid with
  | none => .error .notFound
  | some g =>
    if g.status = .closed then .error .gatheringClosed
    else
      match g.members.find? (fun m => m.name = member_name) with
      | none => .error .memberNotFound
      | some m =>
        if m.expenses ≠ [] then .error .memberHasActivity
        else if m.payments ≠ [] then .error .memberHasActivity
        else .ok (updateGathering db gid
          { g with
            members := removeFirst (fun x => x.name = member_name) g.members,
            total_members := g.total_members - 1 })

/-- DatabaseManager.add_expense (models.py 344-415): positive amount required;
gathering must exist and be open; the expense goes to the member with the
exact name if present, otherwise the first member whose name matches
LIKE "member%" is renamed in place to member_name and receives it, and if no
name matches the call fails with MemberNotFound. -/
def add_expense (db : DB) (gid member_name : String) (amount : ℚ) : Except GErr DB :=
  if amount ≤ 0 then .error .invalidAmount
  else
    match findGathering db gid with
    | none => .error .notFound
    | some g =>
      if g.status = .closed then .error .gatheringClosed
      else if g.members.any (fun m => m.name = member_name) then
        .ok (updateGathering db gid
          { g with members := (modifyFirst (fun m => m.name = member_name)
              (fun m => { m with expenses := m.expenses ++ [amount] }) g.members) })
      else if g.members.any likeMember then
        .ok (updateGathering db gid
          { g with members := (modifyFirst likeMember
              (fun m => { m with name := member_name,
                                 expenses := m.expenses ++ [amount] }) g.members) })
      else .error .memberNotFound

/-- DatabaseManager.record_payment (models.py 417-473): any amount; member must
exist by exact name. -/
def record_payment (db : DB) (gid member_name : String) (amount : ℚ) : Except GErr DB :=
  match findGathering db gid with
  | none => .error .notFound
  | some g =>
    if g.status = .closed then .error .gatheringClosed
    else if g.members.any (fun m => m.name = member_name) then
      .ok (updateGathering db gid
        { g with members := (modifyFirst (fun m => m.name = member_name)
            (fun m => { m with payments := m.payments ++ [amount] }) g.members) })
    else .error .memberNotFound

/-- DatabaseManager.rename_member (models.py 475-530). -/
def rename_member (db : DB) (gid old_name new_name : String) : Except GErr DB :=
  match findGathering db gid with
  | none => .error .notFound
  | some g =>
    if g.status = .closed then .error .gatheringClosed
    else if ¬ g.members.any (fun m => m.name = old_name) then .error .memberNotFound
    else if g.members.any (fun m => m.name = new_name) then .error .duplicateName
    else .ok (updateGathering db gid
      { g with members := (modifyFirst (fun m => m.name = old_name)
          (fun m => { m with name := new_name }) g.members) })

/-- DatabaseManager.close_gathering (models.py 532-568). -/
def close_gathering (db : DB) (gid : String) : Except GErr DB :=
  match findGathering db gid with
  | none => .error .notFound
  | some g =>
    if g.status = .closed then .error .alreadyClosed
    else .ok (updateGathering db gid { g with status := .closed })

/-- Summing a per-member affine expression splits into the expense sum, the
payment sum, and a per-member constant. -/
lemma sum_map_affine (l : List Member) (c : ℚ) :
    (l.map (fun m => m.total_expenses + m.total_payments - c)).sum =
      (l.map Member.total_expenses).sum + (l.map Member.total_payments).sum
        - l.length * c := by
  induction l with
  | nil => simp
  | cons a t ih =>
    simp only [List.map_cons, List.sum_cons, ih, List.length_cons]
    push_cast
    ring

/-- modifyFirst rewrites exactly the first matching member. -/
lemma modifyFirst_append (p : Member → Bool) (f : Member → Member)
    (pre post : List Member) (m : Member)
    (hpre : ∀ x ∈ pre, p x = false) (hm : p m = true) :
    modifyFirst p f (pre ++ m :: post) = pre ++ f m :: post := by
  induction pre with
  | nil => simp [modifyFirst, hm]
  | cons a t ih =>
    have ha : p a = false := hpre a (by simp)
    simp only [List.cons_append, modifyFirst, ha, Bool.false_eq_true, if_false]
    exact congrArg (a :: ·) (ih (fun x hx => hpre x (by simp [hx])))

/-- removeFirst deletes exactly the first matching member. -/
lemma removeFirst_append (p : Member → Bool)
    (pre post : List Member) (m : Member)
    (hpre : ∀ x ∈ pre, p x = false) (hm : p m = true) :
    removeFirst p (pre ++ m :: post) = pre ++ post := by
  induction pre with
  | nil => simp [removeFirst, hm]
  | cons a t ih =>
    have ha : p a = false := hpre a (by simp)
    simp only [List.cons_append, removeFirst, ha, Bool.false_eq_true, if_false]
    exact congrArg (a :: ·) (ih (fun x hx => hpre x (by simp [hx])))

/-- removeFirst shortens a list containing a match by exactly one element. -/
lemma removeFirst_length (p : Member → Bool) (l : List Member)
    (h : ∃ x ∈ l, p x = true) :
    (removeFirst p l).length + 1 = l.length := by
  induction l with
  | nil => simp at h
  | cons a t ih =>
    by_cases ha : p a = true
    · simp [removeFirst, ha]
    · obtain ⟨x, hx, hpx⟩ := h
      rcases List.mem_cons.1 hx with rfl | hxt
      · exact absurd hpx ha
      · simp only [removeFirst, ha, Bool.false_eq_true, if_false, List.length_cons]
        rw [ih ⟨x, hxt, hpx⟩]

/-- find? locates exactly the first matching member. -/
lemma find?_first (p : Member → Bool) (pre post : List Member) (m : Member)
    (hpre : ∀ x ∈ pre, p x = false) (hm : p m = true) :
    (pre ++ m :: post).find? p = some m := by
  induction pre with
  | nil => simp [List.find?_cons, hm]
  | cons a t ih =>
    have ha : p a = false := hpre a (by simp)
    simp only [List.cons_append, List.find?_cons, ha]
    exact ih (fun x hx => hpre x (by simp [hx]))

deriving instance DecidableEq for Except

/-- Intercalating a single separator through three components. -/
lemma intercalate_three (a b c : List Char) :
    List.intercalate ['-'] [a, b, c] = a ++ '-' :: (b ++ '-' :: c) := by
  simp [List.intercalate, List.intersperse]

/-- splitDash splits off a hyphen-free leading component at the first hyphen. -/
lemma splitDash_append_dash (xs ys : List Char) (hxs : '-' ∉ xs) :
    splitDash (xs ++ '-' :: ys) = xs :: splitDash ys := by
  induction xs with
  | nil => simp [splitDash]
  | cons c t ih =>
    have hc : ¬ c = '-' := fun h => hxs (by simp [h])
    have ht : '-' ∉ t := fun h => hxs (by simp [h])
    simp only [List.cons_append, splitDash, List.append_eq]
    rw [if_neg hc, ih ht]

/-- splitDash of a hyphen-free list is that single component. -/
lemma splitDash_pure (xs : List Char) (hxs : '-' ∉ xs) :
    splitDash xs = [xs] := by
  induction xs with
  | nil => rfl
  | cons c t ih =>
    have hc : ¬ c = '-' := fun h => hxs (by simp [h])
    have ht : '-' ∉ t := fun h => hxs (by simp [h])
    simp only [splitDash]
    rw [if_neg hc, ih ht]

/-- A decimal digit character is not a hyphen. -/
lemma isDigit_ne_dash (c : Char) (h : c.isDigit = true) : c ≠ '-' := by
  intro he
  rw [he] at h
  exact absurd h (by decide)

/-- The total_members bookkeeping invariant, over every gathering of the store:
the stored count equals the number of attached members. -/
def invariantDB (db : DB) : Prop :=
  ∀ g ∈ db, g.total_members = (g.members.length : Int)

/-- Replacing one row with a row that satisfies the count invariant preserves
the store-wide invariant. -/
lemma invariantDB_update (db : DB) (gid : String) (g' : Gathering)
    (hdb : invariantDB db) (hg' : g'.total_members = (g'.members.length : Int)) :
    invariantDB (updateGathering db gid g') := by
  intro x hx
  rcases List.mem_map.1 hx with ⟨y, hy, hxy⟩
  by_cases h : y.id = gid
  · rw [if_pos h] at hxy
    rw [← hxy]
    exact hg'
  · rw [if_neg h] at hxy
    rw [← hxy]
    exact hdb y hy

/-- Claim C8: expense_per_member equals the sum of all expense amounts divided
by total_members when total_members is nonzero and equals 0 when total_members
is zero; the guard means the division is never reached with a zero
denominator. -/
theorem C8_expense_per_member (g : Gathering) :
    g.expense_per_member =
      if g.total_members = 0 then 0
      else g.total_expenses / (g.total_members : ℚ) := rfl

/-- Member exhibiting the C1 discrepancy: one payment of 100 and no expenses. -/
def c1M : Member := ⟨"member0001", [], [100]⟩

/-- One-member gathering owning c1M. -/
def c1G : Gathering := ⟨"2025-01-01-a", 1, .opened, [c1M]⟩

/-- Claim C1 counterexample: for a member of a one-member gathering with a
single recorded payment of 100 and no expenses, the reimbursement amount
(to_pay) is +100 while the negated balance is -100, so
reimbursements(g)[m] ≠ -member_balance(m, g). -/
theorem C1_counterexample :
    c1M ∈ c1G.members ∧
    to_pay c1G c1M = 100 ∧
    Member.balance c1G c1M = 100 ∧
    ¬ to_pay c1G c1M = -(Member.balance c1G c1M) := by
  refine ⟨by decide, ?_, ?_, ?_⟩ <;>
    norm_num [to_pay, Member.balance, Member.total_expenses, Member.total_payments,
      Gathering.expense_per_member, c1G, c1M]

/-- Claim C1 amended: for every member m of g the reimbursement entry for m is
the negated balance PLUS twice m's total payments (the two formulas agree
exactly when the member has no recorded payments, because to_pay adds
total_payments where -balance subtracts it). -/
theorem C1_amended (g : Gathering) (m : Member) (hm : m ∈ g.members) :
    (m.name, -(Member.balance g m) + 2 * m.total_payments) ∈
      calculate_reimbursements g := by
  have h : -(Member.balance g m) + 2 * m.total_payments = to_pay g m := by
    unfold to_pay Member.balance
    ring
  rw [h]
  exact List.mem_map.2 ⟨m, hm, rfl⟩

/-- Witness for C1's amended theorem at the concrete gathering c1G. -/
theorem C1_witness :
    ("member0001", -(Member.balance c1G c1M) + 2 * Member.total_payments c1M) ∈
      calculate_reimbursements c1G :=
  C1_amended c1G c1M (by decide)

/-- Freshly created one-member gathering used for the C2 scenario. -/
def c2db0 : DB := [⟨"2025-01-01-b", 1, .opened, [⟨"member0001", [], []⟩]⟩]

/-- The same gathering after recording a payment of 100. -/
def c2G : Gathering := ⟨"2025-01-01-b", 1, .opened, [⟨"member0001", [], [100]⟩]⟩

/-- Claim C2 counterexample: create a one-member gathering and record a payment
of 100; the member balances then sum to 100, which is not within any epsilon of
zero (the code's own epsilon is 0.01), refuting "regardless of the expenses and
payments recorded". -/
theorem C2_counterexample :
    create_gathering [] "2025-01-01-b" 1 = .ok c2db0 ∧
    record_payment c2db0 "2025-01-01-b" "member0001" 100 = .ok [c2G] ∧
    (c2G.members.map (fun m => Member.balance c2G m)).sum = 100 ∧
    (1 / 100 : ℚ) ≤ (c2G.members.map (fun m => Member.balance c2G m)).sum := by
  refine ⟨by decide, by decide, ?_, ?_⟩ <;>
    norm_num [Member.balance, Member.total_expenses, Member.total_payments,
      Gathering.expense_per_member, c2G]

/-- Claim C2 amended: when total_members matches the member count (the
bookkeeping invariant), the member balances sum exactly to the gathering's
total recorded payments — hence to zero precisely when payments net to zero
(in particular with no payments), not regardless of payments. -/
theorem C2_amended (g : Gathering)
    (h : g.total_members = (g.members.length : Int)) :
    (g.members.map (fun m => Member.balance g m)).sum = g.total_payments := by
  unfold Member.balance
  rw [sum_map_affine]
  unfold Gathering.total_payments Gathering.expense_per_member
  by_cases h0 : g.total_members = 0
  · rw [if_pos h0]
    have hlen : g.members.length = 0 := by omega
    have hnil : g.members = [] := List.length_eq_zero.1 hlen
    simp [hnil]
  · rw [if_neg h0]
    have hlen : (g.members.length : ℚ) = (g.total_members : ℚ) := by
      have : ((g.members.length : Int) : ℚ) = (g.total_members : ℚ) := by
        rw [h]
      push_cast at this
      exact this
    have hne : (g.total_members : ℚ) ≠ 0 := Int.cast_ne_zero.2 h0
    rw [hlen]
    field_simp

/-- Witness for C2's amended theorem at the concrete gathering c2G. -/
theorem C2_witness :
    (c2G.members.map (fun m => Member.balance c2G m)).sum =
      Gathering.total_payments c2G :=
  C2_amended c2G (by decide)

/-- Scenario A gathering id. -/
def c6id : String := "2025-03-01-friendsbeer"

/-- Scenario A, after creation with 5 members. -/
def c6g0 : Gathering := ⟨c6id, 5, .opened,
  [⟨"member0001", [], []⟩, ⟨"member0002", [], []⟩, ⟨"member0003", [], []⟩,
   ⟨"member0004", [], []⟩, ⟨"member0005", [], []⟩]⟩

/-- Scenario A, after the expense of 50 naming Roy (member0001 renamed). -/
def c6g1 : Gathering := ⟨c6id, 5, .opened,
  [⟨"Roy", [50], []⟩, ⟨"member0002", [], []⟩, ⟨"member0003", [], []⟩,
   ⟨"member0004", [], []⟩, ⟨"member0005", [], []⟩]⟩

/-- Scenario A, after the expense of 100 naming David (member0002 renamed). -/
def c6g2 : Gathering := ⟨c6id, 5, .opened,
  [⟨"Roy", [50], []⟩, ⟨"David", [100], []⟩, ⟨"member0003", [], []⟩,
   ⟨"member0004", [], []⟩, ⟨"member0005", [], []⟩]⟩

/-- Scenario A, after the expense of 50 naming Felix (member0003 renamed). -/
def c6g3 : Gathering := ⟨c6id, 5, .opened,
  [⟨"Roy", [50], []⟩, ⟨"David", [100], []⟩, ⟨"Felix", [50], []⟩,
   ⟨"member0004", [], []⟩, ⟨"member0005", [], []⟩]⟩

/-- Claim C6: scenario A — create "2025-03-01-friendsbeer" with 5 members, add
expenses 50 for Roy, 100 for David, 50 for Felix (each renaming the next
placeholder); then total_expenses = 200, expense_per_member = 40, and the
reimbursements are Roy -10, David -60, Felix -10 and +40 for each of the two
remaining placeholders. -/
theorem C6_scenario :
    create_gathering [] c6id 5 = .ok [c6g0] ∧
    add_expense [c6g0] c6id "Roy" 50 = .ok [c6g1] ∧
    add_expense [c6g1] c6id "David" 100 = .ok [c6g2] ∧
    add_expense [c6g2] c6id "Felix" 50 = .ok [c6g3] ∧
    Gathering.total_expenses c6g3 = 200 ∧
    Gathering.expense_per_member c6g3 = 40 ∧
    calculate_reimbursements c6g3 =
      [("Roy", -10), ("David", -60), ("Felix", -10),
       ("member0004", 40), ("member0005", 40)] := by
  refine ⟨by decide, by decide, by decide, by decide, ?_, ?_, ?_⟩ <;>
    norm_num [Gathering.total_expenses, Gathering.expense_per_member,
      calculate_reimbursements, to_pay, Member.total_expenses,
      Member.total_payments, c6g3, c6id]

/-- Claim C7: on a gathering whose status is CLOSED, each of the five mutating
operations fails with GatheringClosed (for add_expense under its
positive-amount precondition, since the amount check precedes the gathering
lookup in the code). In this state-passing embedding an error result carries no
new store value, which models the exception-plus-rollback leaving members,
expenses, payments, total_members and status unchanged. -/
theorem C7_closed_guard (db : DB) (gid : String) (g : Gathering)
    (hg : findGathering db gid = some g) (hc : g.status = .closed)
    (member_name old_name new_name : String) (amount payAmount : ℚ)
    (hamt : 0 < amount) :
    add_expense db gid member_name amount = .error .gatheringClosed ∧
    record_payment db gid member_name payAmount = .error .gatheringClosed ∧
    rename_member db gid old_name new_name = .error .gatheringClosed ∧
    add_member db gid member_name = .error .gatheringClosed ∧
    remove_member db gid member_name = .error .gatheringClosed := by
  have hna : ¬ amount ≤ 0 := not_le.2 hamt
  refine ⟨?_, ?_, ?_, ?_, ?_⟩ <;>
    simp [add_expense, record_payment, rename_member, add_member, remove_member,
      hg, hc, hna]

/-- A concrete closed gathering for the C7 witness. -/
def c7G : Gathering := ⟨"2025-01-01-c", 1, .closed, [⟨"member0001", [], []⟩]⟩

/-- Witness for C7 at the concrete closed gathering c7G. -/
theorem C7_witness :
    add_expense [c7G] "2025-01-01-c" "Roy" 5 = .error .gatheringClosed ∧
    record_payment [c7G] "2025-01-01-c" "Roy" 7 = .error .gatheringClosed ∧
    rename_member [c7G] "2025-01-01-c" "member0001" "Roy" = .error .gatheringClosed ∧
    add_member [c7G] "2025-01-01-c" "Roy" = .error .gatheringClosed ∧
    remove_member [c7G] "2025-01-01-c" "member0001" = .error .gatheringClosed :=
  C7_closed_guard [c7G] "2025-01-01-c" c7G (by decide) rfl
    "Roy" "member0001" "Roy" 5 7 (by decide)

/-- The gathering produced by create_gathering with member_count = -1. -/
def c3G : Gathering := ⟨"2025-01-01-n", -1, .opened, []⟩

/-- Claim C3 counterexample: create_gathering accepts member_count = -1 without
validation (Python's range(1, 0) creates no members), producing total_members
= -1 with zero attached members, so the invariant fails for this integer
member_count. -/
theorem C3_counterexample :
    create_gathering [] "2025-01-01-n" (-1) = .ok [c3G] ∧
    c3G.total_members = -1 ∧ c3G.members.length = 0 ∧
    ¬ c3G.total_members = (c3G.members.length : Int) := by decide

/-- Claim C3 amended: for NON-NEGATIVE member_count the invariant
total_members = member count holds after create_gathering, and it is preserved
by add_member (which increments both sides by one) and remove_member (which
decrements both sides by one). -/
theorem C3_amended (db db' : DB) (gid member_name : String) (n : Int)
    (hdb : invariantDB db) :
    (0 ≤ n → create_gathering db gid n = .ok db' → invariantDB db') ∧
    (add_member db gid member_name = .ok db' → invariantDB db') ∧
    (remove_member db gid member_name = .ok db' → invariantDB db') := by
  refine ⟨?_, ?_, ?_⟩
  · intro hn h
    unfold create_gathering at h
    by_cases hv : validGatheringId gid = true
    · rw [if_neg (by simp [hv])] at h
      by_cases he : (findGathering db gid).isSome = true
      · rw [if_pos he] at h
        simp at h
      · rw [if_neg he] at h
        injection h with h
        subst h
        intro x hx
        rcases List.mem_append.1 hx with hx1 | hx2
        · exact hdb x hx1
        · rw [List.mem_singleton.1 hx2]
          simp only [List.length_map, List.length_range]
          omega
    · rw [if_pos (by simp [hv])] at h
      simp at h
  · intro h
    unfold add_member at h
    cases hf : findGathering db gid with
    | none => rw [hf] at h; simp at h
    | some g =>
      rw [hf] at h
      dsimp only [] at h
      by_cases hc : g.status = .closed
      · rw [if_pos hc] at h; simp at h
      · rw [if_neg hc] at h
        by_cases hd : (g.members.any fun m => m.name = member_name) = true
        · rw [if_pos hd] at h; simp at h
        · rw [if_neg hd] at h
          injection h with h
          subst h
          apply invariantDB_update db gid _ hdb
          unfold findGathering at hf
          have hinv := hdb g (List.mem_of_find?_eq_some hf)
          show g.total_members + 1 =
            ((g.members ++
              [({ name := member_name, expenses := [], payments := [] } : Member)]).length : Int)
          rw [List.length_append]
          simp only [List.length_cons, List.length_nil]
          omega
  · intro h
    unfold remove_member at h
    cases hf : findGathering db gid with
    | none => rw [hf] at h; simp at h
    | some g =>
      rw [hf] at h
      dsimp only [] at h
      by_cases hc : g.status = .closed
      · rw [if_pos hc] at h; simp at h
      · rw [if_neg hc] at h
        cases hm : g.members.find? (fun m => m.name = member_name) with
        | none => rw [hm] at h; simp at h
        | some m =>
          rw [hm] at h
          dsimp only [] at h
          by_cases he : m.expenses ≠ []
          · rw [if_pos he] at h; simp at h
          · rw [if_neg he] at h
            by_cases hp : m.payments ≠ []
            · rw [if_pos hp] at h; simp at h
            · rw [if_neg hp] at h
              injection h with h
              subst h
              apply invariantDB_update db gid _ hdb
              unfold findGathering at hf
              have hinv := hdb g (List.mem_of_find?_eq_some hf)
              have hmm := List.mem_of_find?_eq_some hm
              have hpm := List.find?_some hm
              have hlen := removeFirst_length (fun x => x.name = member_name)
                g.members ⟨m, hmm, hpm⟩
              show g.total_members - 1 =
                ((removeFirst (fun x => x.name = member_name) g.members).length : Int)
              omega

/-- Concrete store for the C3 witness: one gathering with two placeholders. -/
def c3db1 : DB :=
  [⟨"2025-01-01-d", 2, .opened, [⟨"member0001", [], []⟩, ⟨"member0002", [], []⟩]⟩]

/-- Witness for C3's amended theorem: creating a gathering with member_count 2
in an empty store yields a store satisfying the invariant. -/
theorem C3_witness : invariantDB c3db1 :=
  (C3_amended [] c3db1 "2025-01-01-d" "x" 2 (by simp [invariantDB])).1
    (by decide) (by decide)

/-- Claim C9: on an open gathering, remove_member fails with MemberNotFound
when no member bears the exact name; fails with MemberHasActivity when the
named member has at least one expense or payment; and otherwise removes
exactly that member (here: the decomposition pre ++ m :: post loses only m)
and decrements total_members by one, leaving every other member with its
expenses and payments untouched. -/
theorem C9_remove_member (db : DB) (gid member_name : String) (g : Gathering)
    (hg : findGathering db gid = some g) (hopen : g.status = .opened) :
    ((∀ m ∈ g.members, m.name ≠ member_name) →
       remove_member db gid member_name = .error .memberNotFound) ∧
    (∀ m, g.members.find? (fun x => x.name = member_name) = some m →
       (m.expenses ≠ [] ∨ m.payments ≠ []) →
       remove_member db gid member_name = .error .memberHasActivity) ∧
    (∀ pre m post, g.members = pre ++ m :: post →
       (∀ x ∈ pre, x.name ≠ member_name) → m.name = member_name →
       m.expenses = [] → m.payments = [] →
       remove_member db gid member_name =
         .ok (updateGathering db gid
           { g with members := pre ++ post,
                    total_members := g.total_members - 1 })) := by
  have hnc : ¬ g.status = .closed := by simp [hopen]
  refine ⟨?_, ?_, ?_⟩
  · intro hnone
    have hfind : g.members.find? (fun x => x.name = member_name) = none :=
      List.find?_eq_none.2 (fun x hx => by simp [hnone x hx])
    unfold remove_member
    rw [hg]
    dsimp only []
    rw [if_neg hnc, hfind]
  · intro m hm hact
    unfold remove_member
    rw [hg]
    dsimp only []
    rw [if_neg hnc, hm]
    dsimp only []
    by_cases he : m.expenses ≠ []
    · rw [if_pos he]
    · rw [if_neg he]
      rcases hact with hx | hp
      · exact absurd hx he
      · rw [if_pos hp]
  · intro pre m post hsplit hpre hname hexp hpay
    have hfind : g.members.find? (fun x => x.name = member_name) = some m := by
      rw [hsplit]
      exact find?_first _ pre post m (fun x hx => by simp [hpre x hx]) (by simp [hname])
    have hrem : removeFirst (fun x => x.name = member_name) g.members = pre ++ post := by
      rw [hsplit]
      exact removeFirst_append _ pre post m (fun x hx => by simp [hpre x hx]) (by simp [hname])
    unfold remove_member
    rw [hg]
    dsimp only []
    rw [if_neg hnc, hfind]
    dsimp only []
    rw [if_neg (by simp [hexp]), if_neg (by simp [hpay]), hrem]

/-- Concrete store for the C9 witness: Alice has no activity, Bob has one
expense. -/
def c9db : DB := [⟨"2025-01-01-e", 2, .opened, [⟨"Alice", [], []⟩, ⟨"Bob", [5], []⟩]⟩]

/-- The single gathering inside c9db. -/
def c9G : Gathering := ⟨"2025-01-01-e", 2, .opened, [⟨"Alice", [], []⟩, ⟨"Bob", [5], []⟩]⟩

/-- Witness for C9 covering all three branches: unknown name, member with
activity, and a clean removal. -/
theorem C9_witness :
    remove_member c9db "2025-01-01-e" "Zed" = .error .memberNotFound ∧
    remove_member c9db "2025-01-01-e" "Bob" = .error .memberHasActivity ∧
    remove_member c9db "2025-01-01-e" "Alice" =
      .ok [⟨"2025-01-01-e", 1, .opened, [⟨"Bob", [5], []⟩]⟩] := by
  refine ⟨?_, ?_, ?_⟩
  · exact (C9_remove_member c9db "2025-01-01-e" "Zed" c9G (by decide) rfl).1 (by decide)
  · exact (C9_remove_member c9db "2025-01-01-e" "Bob" c9G (by decide) rfl).2.1
      ⟨"Bob", [5], []⟩ (by decide) (Or.inl (by decide))
  · exact ((C9_remove_member c9db "2025-01-01-e" "Alice" c9G (by decide) rfl).2.2
      [] ⟨"Alice", [], []⟩ [⟨"Bob", [5], []⟩] rfl (by simp) rfl rfl rfl).trans (by decide)

/-- Gathering id used by the C4 counterexample. -/
def c4id : String := "2025-01-01-g"

/-- After create with 1 member: placeholder member0001. -/
def c4g1 : Gathering := ⟨c4id, 1, .opened, [⟨"member0001", [], []⟩]⟩

/-- After add_member "member0000": a member-prefixed name with a LOWER numeric
suffix than member0001, inserted later. -/
def c4g2 : Gathering := ⟨c4id, 2, .opened, [⟨"member0001", [], []⟩, ⟨"member0000", [], []⟩]⟩

/-- After add_expense naming "Roy": member0001 was renamed, member0000 kept. -/
def c4g3 : Gathering := ⟨c4id, 2, .opened, [⟨"Roy", [5], []⟩, ⟨"member0000", [], []⟩]⟩

/-- Claim C4 counterexample: with placeholders member0001 (created first) and
member0000 (added later), add_expense for the unknown name "Roy" renames
member0001 — the first match in insertion order — although member0000 has the
lowest numeric suffix, so "the placeholder with the lowest numeric suffix is
renamed" fails on this input. -/
theorem C4_counterexample :
    create_gathering [] c4id 1 = .ok [c4g1] ∧
    add_member [c4g1] c4id "member0000" = .ok [c4g2] ∧
    add_expense [c4g2] c4id "Roy" 5 = .ok [c4g3] ∧
    c4g3.members.map Member.name = ["Roy", "member0000"] := by decide

/-- Claim C4 amended: on an open gathering with a positive amount, add_expense
gives the expense to the first member with the exact name when one exists;
otherwise it renames in place the FIRST member (in insertion order, i.e. lowest
internal id — not necessarily the lowest numeric suffix) whose name matches the
placeholder convention LIKE "member%", leaving all other members unchanged;
and when neither exists it fails with MemberNotFound. -/
theorem C4_amended (db : DB) (gid member_name : String) (amount : ℚ) (g : Gathering)
    (hg : findGathering db gid = some g) (hopen : g.status = .opened)
    (hamt : 0 < amount) :
    (∀ pre m post, g.members = pre ++ m :: post →
       (∀ x ∈ pre, x.name ≠ member_name) → m.name = member_name →
       add_expense db gid member_name amount =
         .ok (updateGathering db gid
           { g with members := pre ++ { m with expenses := m.expenses ++ [amount] } :: post })) ∧
    ((∀ x ∈ g.members, x.name ≠ member_name) →
     ∀ pre m post, g.members = pre ++ m :: post →
       (∀ x ∈ pre, likeMember x = false) → likeMember m = true →
       add_expense db gid member_name amount =
         .ok (updateGathering db gid
           { g with members := pre ++ { m with name := member_name, expenses := m.expenses ++ [amount] } :: post })) ∧
    ((∀ x ∈ g.members, x.name ≠ member_name) →
     (∀ x ∈ g.members, likeMember x = false) →
     add_expense db gid member_name amount = .error .memberNotFound) := by
  have hna : ¬ amount ≤ 0 := not_le.2 hamt
  have hnc : ¬ g.status = .closed := by simp [hopen]
  refine ⟨?_, ?_, ?_⟩
  · intro pre m post hsplit hpre hname
    have hany : (g.members.any fun x => x.name = member_name) = true := by
      rw [hsplit]
      simp [hname]
    have hmod : modifyFirst (fun x => x.name = member_name)
        (fun x => { x with expenses := x.expenses ++ [amount] }) g.members =
        pre ++ { m with expenses := m.expenses ++ [amount] } :: post := by
      rw [hsplit]
      exact modifyFirst_append _ _ pre post m (fun x hx => by simp [hpre x hx]) (by simp [hname])
    unfold add_expense
    rw [if_neg hna, hg]
    dsimp only []
    rw [if_neg hnc, if_pos hany, hmod]
  · intro hnone pre m post hsplit hpre hlike
    have hany : (g.members.any fun x => x.name = member_name) = false := by
      rw [List.any_eq_false]
      intro x hx
      simp [hnone x hx]
    have hanyL : g.members.any likeMember = true := by
      rw [hsplit]
      simp [hlike]
    have hmod : modifyFirst likeMember
        (fun x => { x with name := member_name, expenses := x.expenses ++ [amount] }) g.members =
          pre ++ { m with name := member_name, expenses := m.expenses ++ [amount] } :: post := by
      rw [hsplit]
      exact modifyFirst_append _ _ pre post m (fun x hx => hpre x hx) hlike
    unfold add_expense
    rw [if_neg hna, hg]
    dsimp only []
    rw [if_neg hnc, if_neg (by simp [hany]), if_pos hanyL, hmod]
  · intro hnone hnl
    have hany : (g.members.any fun x => x.name = member_name) = false := by
      rw [List.any_eq_false]
      intro x hx
      simp [hnone x hx]
    have hanyL : g.members.any likeMember = false := by
      rw [List.any_eq_false]
      intro x hx
      simp [hnl x hx]
    unfold add_expense
    rw [if_neg hna, hg]
    dsimp only []
    rw [if_neg hnc, if_neg (by simp [hany]), if_neg (by simp [hanyL])]

/-- Concrete store for the C4 witness: a real member followed by a placeholder. -/
def c4wdb : DB := [⟨"2025-01-01-h", 2, .opened, [⟨"Alice", [], []⟩, ⟨"member0007", [], []⟩]⟩]

/-- The single gathering inside c4wdb. -/
def c4wG : Gathering := ⟨"2025-01-01-h", 2, .opened, [⟨"Alice", [], []⟩, ⟨"member0007", [], []⟩]⟩

/-- Witness for C4's amended theorem: the unknown name "Bob" renames
placeholder member0007 (first LIKE match after non-matching Alice). -/
theorem C4_witness :
    add_expense c4wdb "2025-01-01-h" "Bob" 3 =
      .ok [⟨"2025-01-01-h", 2, .opened, [⟨"Alice", [], []⟩, ⟨"Bob", [3], []⟩]⟩] :=
  ((C4_amended c4wdb "2025-01-01-h" "Bob" 3 c4wG (by decide) rfl (by decide)).2.1
    (by decide) [⟨"Alice", [], []⟩] ⟨"member0007", [], []⟩ [] rfl (by decide) (by decide)).trans
    (by decide)

/-- The spec's generated-name convention: exactly "member" followed by a
4-digit zero-padded sequence number. Used to state that a member is NOT a
generated placeholder. -/
def isGeneratedName (s : String) : Bool :=
  match s.toList with
  | 'm' :: 'e' :: 'm' :: 'b' :: 'e' :: 'r' :: d1 :: d2 :: d3 :: d4 :: [] =>
    d1.isDigit && d2.isDigit && d3.isDigit && d4.isDigit
  | _ => false

/-- Claim C10: the placeholder search in add_expense is the prefix filter
LIKE "member%", so a gathering whose only member is a real (non-generated,
hng) member whose chosen name merely starts with "member" still has that
member renamed in place by add_expense with an unknown member_name, instead of
failing with MemberNotFound. -/
theorem C10_like_any_member (db : DB) (gid target : String) (g : Gathering)
    (m : Member) (amount : ℚ)
    (hg : findGathering db gid = some g) (hopen : g.status = .opened)
    (hamt : 0 < amount) (hmem : g.members = [m])
    (hlike : likeMember m = true) (hng : isGeneratedName m.name = false)
    (hne : m.name ≠ target) :
    add_expense db gid target amount =
      .ok (updateGathering db gid
        { g with members := [{ m with name := target, expenses := m.expenses ++ [amount] }] }) := by
  have hna : ¬ amount ≤ 0 := not_le.2 hamt
  have hnc : ¬ g.status = .closed := by simp [hopen]
  have hany : (g.members.any fun x => x.name = target) = false := by
    rw [hmem]
    simp [hne]
  have hanyL : g.members.any likeMember = true := by
    rw [hmem]
    simp [hlike]
  have hmod : modifyFirst likeMember
      (fun x => { x with name := target, expenses := x.expenses ++ [amount] }) g.members =
        [{ m with name := target, expenses := m.expenses ++ [amount] }] := by
    rw [hmem]
    simp [modifyFirst, hlike]
  unfold add_expense
  rw [if_neg hna, hg]
  dsimp only []
  rw [if_neg hnc, if_neg (by simp [hany]), if_pos hanyL, hmod]

/-- Concrete store for the C10 witness: the only member is "memberly", a chosen
name that starts with "member" but is not of the generated member+4-digit
form. -/
def c10db : DB := [⟨"2025-01-01-k", 1, .opened, [⟨"memberly", [], []⟩]⟩]

/-- The single gathering inside c10db. -/
def c10G : Gathering := ⟨"2025-01-01-k", 1, .opened, [⟨"memberly", [], []⟩]⟩

/-- Witness for C10: add_expense with unknown name "Roy" renames the real
member "memberly" instead of failing. -/
theorem C10_witness :
    add_expense c10db "2025-01-01-k" "Roy" 5 =
      .ok [⟨"2025-01-01-k", 1, .opened, [⟨"Roy", [5], []⟩]⟩] :=
  (C10_like_any_member c10db "2025-01-01-k" "Roy" c10G ⟨"memberly", [], []⟩ 5
    (by decide) rfl (by decide) rfl (by decide) (by decide) (by decide)).trans (by decide)

/-- Every month length produced by daysInMonth is at most 31. -/
lemma daysInMonth_le_31 (y m : Nat) : daysInMonth y m ≤ 31 := by
  unfold daysInMonth
  split
  · split <;> omega
  · split <;> omega

/-- Follows the spec's words for the claimed id contract: the id must begin
with a bit-exact calendar-valid YYYY-MM-DD (4-digit year, 2-digit month and
day) followed by a hyphen and a free-form suffix. -/
def specConformingId (gid : String) : Bool :=
  match gid.toList with
  | y1 :: y2 :: y3 :: y4 :: s1 :: mo1 :: mo2 :: s2 :: d1 :: d2 :: s3 :: _ =>
    s1 == '-' && s2 == '-' && s3 == '-' &&
    allDigitsL [y1, y2, y3, y4, mo1, mo2, d1, d2] &&
    decide (1 ≤ digitsValL [y1, y2, y3, y4]) &&
    decide (1 ≤ digitsValL [mo1, mo2]) && decide (digitsValL [mo1, mo2] ≤ 12) &&
    decide (1 ≤ digitsValL [d1, d2]) &&
    decide (digitsValL [d1, d2] ≤ daysInMonth (digitsValL [y1, y2, y3, y4]) (digitsValL [mo1, mo2]))
  | _ => false

/-- Whether a database operation returned successfully. -/
def isOkE (r : Except GErr DB) : Bool :=
  match r with
  | .ok _ => true
  | .error _ => false

/-- Result of creating a gathering with the suffix-free id "2025-03-01". -/
def c5gA : Gathering := ⟨"2025-03-01", 3, .opened,
  [⟨"member0001", [], []⟩, ⟨"member0002", [], []⟩, ⟨"member0003", [], []⟩]⟩

/-- Result of creating a gathering with the single-digit-date id "2025-3-1-x". -/
def c5gB : Gathering := ⟨"2025-3-1-x", 3, .opened,
  [⟨"member0001", [], []⟩, ⟨"member0002", [], []⟩, ⟨"member0003", [], []⟩]⟩

/-- Claim C5 counterexample: "2025-03-01" (no hyphen-plus-suffix after the
date) and "2025-3-1-x" (single-digit month and day) both deviate from the
claimed bit-exact YYYY-MM-DD-suffix format, yet create_gathering accepts both
instead of failing with InvalidId, because strptime's %m and %d accept 1-digit
fields and the code never requires a fourth component. -/
theorem C5_counterexample :
    specConformingId "2025-03-01" = false ∧
    create_gathering [] "2025-03-01" 3 = .ok [c5gA] ∧
    specConformingId "2025-3-1-x" = false ∧
    create_gathering [] "2025-3-1-x" 3 = .ok [c5gB] := by decide

/-- Claim C5 amended: create_gathering fails with InvalidId exactly when the
join of the first three hyphen-separated components of the id does not parse
as a calendar-valid date with a 4-digit year and 1-OR-2-digit month and day
(the suffix is optional); any not-yet-present id passing that parse is
accepted; and every id in the bit-exact YYYY-MM-DD-suffix shape with a
calendar-valid date is in particular accepted. -/
theorem C5_amended (db : DB) (gid : String) (n : Int) :
    (create_gathering db gid n = .error .invalidId ↔ validGatheringId gid = false) ∧
    (validGatheringId gid = true → findGathering db gid = none →
       isOkE (create_gathering db gid n) = true) ∧
    (∀ (y1 y2 y3 y4 mo1 mo2 d1 d2 : Char) (rest : List Char),
       gid.toList = y1 :: y2 :: y3 :: y4 :: '-' :: mo1 :: mo2 :: '-' :: d1 :: d2 :: '-' :: rest →
       allDigitsL [y1, y2, y3, y4, mo1, mo2, d1, d2] = true →
       1 ≤ digitsValL [y1, y2, y3, y4] →
       1 ≤ digitsValL [mo1, mo2] → digitsValL [mo1, mo2] ≤ 12 →
       1 ≤ digitsValL [d1, d2] →
       digitsValL [d1, d2] ≤ daysInMonth (digitsValL [y1, y2, y3, y4]) (digitsValL [mo1, mo2]) →
       validGatheringId gid = true) := by
  refine ⟨?_, ?_, ?_⟩
  · by_cases hv : validGatheringId gid = true
    · constructor
      · intro h
        unfold create_gathering at h
        rw [if_neg (by simp [hv])] at h
        by_cases he : (findGathering db gid).isSome = true
        · rw [if_pos he] at h
          exact absurd h (by simp)
        · rw [if_neg he] at h
          exact absurd h (by simp)
      · intro h
        rw [hv] at h
        cases h
    · have hv' : validGatheringId gid = false := by
        cases hx : validGatheringId gid
        · rfl
        · exact absurd hx hv
      constructor
      · intro _
        exact hv'
      · intro _
        unfold create_gathering
        rw [if_pos (by simp [hv'])]
  · intro hv hnone
    unfold create_gathering
    rw [if_neg (by simp [hv]), if_neg (by simp [hnone])]
    rfl
  · intro y1 y2 y3 y4 mo1 mo2 d1 d2 rest hl hdig hy hmo1 hmo2 hd1 hd2
    have h8 := hdig
    simp only [allDigitsL, List.all_cons, List.all_nil, Bool.and_eq_true, Bool.and_true] at h8
    obtain ⟨hq1, hq2, hq3, hq4, hq5, hq6, hq7, hq8⟩ := h8
    have hnd : ∀ c : Char, c.isDigit = true → '-' ≠ c :=
      fun c hc h => isDigit_ne_dash c hc h.symm
    have hY : '-' ∉ [y1, y2, y3, y4] := by
      simp [hnd y1 hq1, hnd y2 hq2, hnd y3 hq3, hnd y4 hq4]
    have hMO : '-' ∉ [mo1, mo2] := by
      simp [hnd mo1 hq5, hnd mo2 hq6]
    have hD : '-' ∉ [d1, d2] := by
      simp [hnd d1 hq7, hnd d2 hq8]
    unfold validGatheringId
    rw [hl]
    show strptimeYMD (List.intercalate ['-']
      ((splitDash ([y1, y2, y3, y4] ++ '-' ::
        ([mo1, mo2] ++ '-' :: ([d1, d2] ++ '-' :: rest)))).take 3)) = true
    rw [splitDash_append_dash _ _ hY, splitDash_append_dash _ _ hMO,
      splitDash_append_dash _ _ hD]
    have htake : ([y1, y2, y3, y4] :: [mo1, mo2] :: [d1, d2] :: splitDash rest).take 3 =
        [[y1, y2, y3, y4], [mo1, mo2], [d1, d2]] := rfl
    rw [htake, intercalate_three]
    unfold strptimeYMD
    rw [splitDash_append_dash _ _ hY, splitDash_append_dash _ _ hMO, splitDash_pure _ hD]
    dsimp only []
    have h31 : digitsValL [d1, d2] ≤ 31 :=
      le_trans hd2 (daysInMonth_le_31 _ _)
    simp [yearFieldOK, monthFieldOK, dayFieldOK, allDigitsL,
      hq1, hq2, hq3, hq4, hq5, hq6, hq7, hq8, hy, hmo1, hmo2, hd1, hd2, h31]

/-- Witness for C5's amended theorem: a conforming fresh id is created
successfully, and a bit-exact id with a valid calendar date passes the code's
validation. -/
theorem C5_witness :
    isOkE (create_gathering [] "2025-12-31-party" 2) = true ∧
    validGatheringId "2026-02-28-x" = true := by
  constructor
  · exact (C5_amended [] "2025-12-31-party" 2).2.1 (by decide) rfl
  · exact (C5_amended [] "2026-02-28-x" 2).2.2 '2' '0' '2' '6' '0' '2' '2' '8' ['x']
      rfl (by decide) (by decide) (by decide) (by decide) (by decide) (by decide)
